import Mathlib

/-!
# Verification of the weathercloud-api client (`src/index.ts`)

Shallow embedding of the public query operations of the weathercloud client.
Each operation is modelled as a pure function of its inputs, the current
session state and an explicit environment describing the outcome of every
remote `fetchData` / `fetch` call the operation may perform.  JSON numbers are
modelled as rationals (`ℚ`); JSON objects whose field set matters are modelled
as association lists of `(name, value)` pairs.  A thrown JavaScript condition
is modelled by `Except.error`; the `try/catch` boundary of each operation is a
separate definition that converts the body's error into the returned
`{error}` value.  Each operation additionally returns the list of URLs it
fetched, so "issues no network call" is statable as an empty trace.
-/

set_option autoImplicit false

namespace Weathercloud

/-- The thrown conditions that can arise inside an operation
(`throw new Error(...)` in `src/index.ts`, a transport rejection,
or the `TypeError` raised by `"date" in data[0]` on an empty array). -/
inductive WcError where
  /-- `new Error("invalid ID")` -/
  | invalidId
  /-- `new Error("Failed to fetch")` -/
  | fetchFailed
  /-- `new Error("Invalid data")` -/
  | invalidData
  /-- `new Error("Session required!")` -/
  | sessionRequired
  /-- `new Error("Period required for popular ranking")` -/
  | periodRequired
  /-- a rejection of the underlying `fetchData` / `fetch` transport call -/
  | network
  /-- the `TypeError` thrown by `"date" in data[0]` when `data` is `[]` -/
  | typeError
  deriving DecidableEq, Repr

/-- Outcome of one `fetchData` call: the transport either throws or
delivers a decoded JSON payload. -/
inductive Remote (α : Type) where
  | thrown
  | json (a : α)
  deriving DecidableEq, Repr

/-- A JSON payload checked for a marker field (`temp` / `update` /
`observer` / `temp_current`): either the marker is absent (which for the
`getStatistics` payload also covers a falsy response), or it is present
together with the data the code then reads. -/
inductive Marked (α : Type) where
  | absent
  | present (a : α)
  deriving DecidableEq, Repr

/-- A JSON field value as it appears in the assembled report:
the raw payloads carry numbers, the derived `weatherAvg` is a string. -/
inductive FieldVal where
  | num (q : ℚ)
  | str (s : String)
  deriving DecidableEq, Repr

/-- The instantaneous sensor reading set of the `device/values` endpoint:
the fields `fetchWeather` reads (`temp`, `dew`, `bar`, `wspd`, `hum`,
`rainrate`, `epoch`), JSON numbers as rationals. -/
structure RawSample where
  temp : ℚ
  dew : ℚ
  bar : ℚ
  wspd : ℚ
  hum : ℚ
  rainrate : ℚ
  epoch : ℚ
  deriving DecidableEq, Repr

/-- The `device/ajaxupdatedate` payload: the field `update`
(seconds since the last station update) that the code reads. -/
structure UpdateData where
  update : ℚ
  deriving DecidableEq, Repr

/-- The `device/ajaxprofile` payload, passed through unchanged:
modelled as an opaque association list of fields. -/
structure ProfileInfo where
  fields : List (String × FieldVal)
  deriving DecidableEq, Repr

/-- Environment of `fetchWeather`: the outcome of its three remote calls. -/
structure FetchEnv where
  values : Remote (Marked RawSample)
  lastUpdate : Remote (Marked UpdateData)
  profile : Remote (Marked ProfileInfo)
  deriving DecidableEq, Repr

/-! ## URLs (the trace entries) -/

def valuesUrl (id : String) : String :=
  "https://app.weathercloud.net/device/values?code=" ++ id

def updateUrl : String := "https://app.weathercloud.net/device/ajaxupdatedate"

def profileUrl : String := "https://app.weathercloud.net/device/ajaxprofile"

def statusUrl : String := "https://app.weathercloud.net/device/ajaxdevicestats"

def statsUrl : String := "https://app.weathercloud.net/device/stats"

def nearestUrl (lat lon radius : String) : String :=
  "https://app.weathercloud.net/page/coordinates/latitude/" ++ lat ++
    "/longitude/" ++ lon ++ "/distance/" ++ radius

def ownUrl : String := "https://app.weathercloud.net/page/own"

/-! ## Derivation engine (`src/index.ts` lines 27, 38–57) -/

/-- Line 7: the regular expression test for exactly ten decimal digits. -/
def isTenDigitId (s : String) : Bool :=
  s.length == 10 && s.toList.all Char.isDigit

/-- Line 7: the guard of the `invalid ID` throw, falsy id or ten digits
(an empty string is the only falsy `weatherCloudId`). -/
def badId (s : String) : Bool :=
  s == "" || isTenDigitId s

/-- Line 27: `(data.temp > -40 && data.dew > -40) ?
Math.max(0, 124.69*(data.temp - data.dew)) : -1`. -/
def cloudsHeightOf (temp dew : ℚ) : ℚ :=
  if temp > -40 ∧ dew > -40 then max 0 ((124.69 : ℚ) * (temp - dew)) else -1

/-- Lines 30–34: the `Invalid data` guard evaluated on the values payload
and the already-computed clouds height. -/
def invalidSample (d : RawSample) (cloudsHeight : ℚ) : Bool :=
  d.bar < 0 || d.rainrate < 0 || cloudsHeight < 0 || d.hum < 0 || d.hum > 100

/-- Lines 38–52: the condition label.  `weatherAvg` starts as `"clear"`;
if `rainrate == 0` it is selected by pressure thresholds `[1005,1010,1015]`
and suffixed with `"-fog"` when the clouds height is below `150`;
otherwise it is selected by rain-rate thresholds `[2,15]`. -/
def weatherAvgOf (bar rainrate cloudsHeight : ℚ) : String :=
  if rainrate = 0 then
    let base :=
      if bar < 1005 then "cloud"
      else if bar < 1010 then "change"
      else if bar < 1015 then "few"
      else "clear"
    if cloudsHeight < 150 then base ++ "-fog" else base
  else
    if rainrate < 2 then "light"
    else if rainrate < 15 then "moderate"
    else "heavy"

/-- Lines 55–57: the perceived temperature.  `chillFn` and `heatFn` live in
`utils` and are black-box pure functions of two numbers (spec §4.1), so they
are parameters here. -/
def feelOf (chillFn heatFn : ℚ → ℚ → ℚ) (temp wspd hum : ℚ) : ℚ :=
  if temp < 10 then chillFn temp wspd
  else if temp > 26 then heatFn temp hum
  else temp

/-- JavaScript `Math.round`: rounds half toward positive infinity. -/
def jsRound (q : ℚ) : ℤ := ⌊q + 1 / 2⌋

/-- Line 68/71: `new Date(epoch*1000)` then
`getHours():getMinutes():getSeconds()`, modelled in UTC. -/
def timeOfDayString (epoch : ℚ) : String :=
  let secs : ℤ := ⌊epoch⌋
  toString ((secs / 3600) % 24) ++ ":" ++ toString ((secs / 60) % 60) ++ ":" ++
    toString (secs % 60)

/-! ## Report assembly (`src/index.ts` lines 59–77) -/

/-- The values payload as a JavaScript object: its fields in order. -/
def sampleFields (d : RawSample) : List (String × FieldVal) :=
  [("temp", .num d.temp), ("dew", .num d.dew), ("bar", .num d.bar),
   ("wspd", .num d.wspd), ("hum", .num d.hum), ("rainrate", .num d.rainrate),
   ("epoch", .num d.epoch)]

/-- Line 59: `const { epoch, ...dataToSave } = data` — the rest-destructuring
keeps every field except `epoch`. -/
def dataToSaveFields (d : RawSample) : List (String × FieldVal) :=
  (sampleFields d).filter fun f => f.1 ≠ "epoch"

/-- Lines 60–65: `{ ...dataToSave, cloudsHeight, weatherAvg, feel }`. -/
def weatherFields (d : RawSample) (cloudsHeight : ℚ) (weatherAvg : String)
    (feel : ℚ) : List (String × FieldVal) :=
  dataToSaveFields d ++
    [("cloudsHeight", .num cloudsHeight), ("weatherAvg", .str weatherAvg),
     ("feel", .num feel)]

/-- Lines 69–74: `{ ...lastUpdate, time, lastUpdateMinutes, updateTime }`. -/
structure UpdateSection where
  update : ℚ
  time : String
  lastUpdateMinutes : ℤ
  updateTime : ℚ
  deriving DecidableEq, Repr

/-- The assembled full report (lines 8–12 / 60–77). -/
structure Report where
  weather : List (String × FieldVal)
  update : UpdateSection
  profile : ProfileInfo
  deriving DecidableEq, Repr

/-- The value a non-login operation returns: either its success payload or
the `{error: <cause>}` object produced by the `catch`. -/
inductive PubResult (α : Type) where
  | payload (a : α)
  | errVal (e : WcError)
  deriving DecidableEq, Repr

/-- Body of `fetchWeather` (lines 6–79, everything inside the `try`):
id validation, the three fetches in order, marker-presence check,
physical-range check, derivation and assembly.  Returns the result
(or the thrown condition) together with the list of URLs fetched. -/
def fetchWeatherBody (chillFn heatFn : ℚ → ℚ → ℚ) (id : String)
    (env : FetchEnv) : Except WcError Report × List String :=
  if badId id then (.error .invalidId, [])
  else
    match env.values with
    | .thrown => (.error .network, [valuesUrl id])
    | .json dataJ =>
      match env.lastUpdate with
      | .thrown => (.error .network, [valuesUrl id, updateUrl])
      | .json updJ =>
        match env.profile with
        | .thrown => (.error .network, [valuesUrl id, updateUrl, profileUrl])
        | .json profJ =>
          let trace := [valuesUrl id, updateUrl, profileUrl]
          match dataJ, updJ, profJ with
          | .present d, .present u, .present p =>
            let cloudsHeight := cloudsHeightOf d.temp d.dew
            if invalidSample d cloudsHeight then (.error .invalidData, trace)
            else
              let weatherAvg := weatherAvgOf d.bar d.rainrate cloudsHeight
              let feel := feelOf chillFn heatFn d.temp d.wspd d.hum
              (.ok { weather := weatherFields d cloudsHeight weatherAvg feel,
                     update := { update := u.update,
                                 time := timeOfDayString d.epoch,
                                 lastUpdateMinutes := jsRound (u.update / 60),
                                 updateTime := d.epoch },
                     profile := p }, trace)
          | _, _, _ => (.error .fetchFailed, trace)

/-- Public `fetchWeather`: the `try/catch` wrapping of the body (lines 80–82).
The outer `Except` models the possibility of an uncaught raise; the `catch`
turns every thrown condition into the `{error}` return value. -/
def fetchWeatherRun (chillFn heatFn : ℚ → ℚ → ℚ) (id : String)
    (env : FetchEnv) : Except WcError (PubResult Report) × List String :=
  match fetchWeatherBody chillFn heatFn id env with
  | (.ok r, t) => (.ok (.payload r), t)
  | (.error e, t) => (.ok (.errVal e), t)

/-! ## Session store (spec §4.3; `getCookie` / `setCookies` live in `utils`) -/

/-- The process-wide session state: the current cookie pairs and the
optionally remembered credentials. -/
structure Session where
  cookies : List (String × String)
  mail : String
  password : String
  deriving DecidableEq, Repr

/-- Modelled from the spec: `getCookie` of `utils` is not under `src/`;
per §4.3 it reads the current cookie state, a sequence of cookie pairs. -/
def getCookie (s : Session) : List (String × String) := s.cookies

/-- JavaScript `Array.prototype.join(sep)`. -/
def jsJoin (sep : String) : List String → String
  | [] => ""
  | [x] => x
  | x :: rest => x ++ sep ++ jsJoin sep rest

/-- Splitter on a non-empty separator, fuel-recursive so that it computes by
kernel reduction; the fuel is the length of the scanned character list. -/
def splitAux (sep : List Char) : Nat → List Char → List Char → List (List Char)
  | _, [], acc => [acc.reverse]
  | 0, rest, acc => [acc.reverse ++ rest]
  | fuel + 1, c :: rest, acc =>
    if sep.isPrefixOf (c :: rest) then
      acc.reverse :: splitAux sep fuel (List.drop sep.length (c :: rest)) []
    else
      splitAux sep fuel rest (c :: acc)

/-- JavaScript `String.prototype.split(sep)` for a non-empty literal
separator: splits at every occurrence of `sep`, and yields `[""]` on the
empty string. -/
def jsSplit (sep s : String) : List String :=
  (splitAux sep.toList s.toList.length s.toList []).map List.asString

/-- Modelled from the spec: cookie-entry parsing inside `setCookies` of
`utils` is not under `src/`; an entry of the form `name=value` parses to a
cookie pair, anything without `=` does not parse. -/
def parseCookieEntry (e : String) : Option (String × String) :=
  match jsSplit "=" e with
  | name :: v :: rest => some (name, jsJoin "=" (v :: rest))
  | _ => none

/-- Modelled from the spec: `setCookies` of `utils` is not under `src/`;
per §4.3 it parses the raw entries and replaces the cookie state, remembering
the given mail/password, and reports failure (`false`) without mutating
existing state when no cookie parses. -/
def setCookies (entries : List String) (mail password : String) (s : Session) :
    Bool × Session :=
  let parsed := entries.filterMap parseCookieEntry
  if parsed.isEmpty then (false, s)
  else (true, { cookies := parsed, mail := mail, password := password })

/-! ## Device list parser (spec §4.4; `parseDevicesList` lives in `utils`) -/

/-- A device-list entry, an opaque record of numeric fields. -/
structure DeviceEntry where
  fields : List (String × ℚ)
  deriving DecidableEq, Repr

/-- The sort-key value of an entry (missing key sorts as `0`). -/
def entryKey (k : String) (e : DeviceEntry) : ℚ :=
  (((e.fields.find? fun f => f.1 = k).map Prod.snd).getD 0)

/-- Modelled from the spec: `parseDevicesList` of `utils` is not under
`src/`; per §4.4 it sorts the entries stably ascending by the sort key when
one is given and keeps the remote order when the key is omitted, passing
every entry through unchanged. -/
def parseDevicesList (devices : List DeviceEntry) (sortKey : Option String) :
    List DeviceEntry :=
  match sortKey with
  | none => devices
  | some k => devices.mergeSort fun a b => entryKey k a ≤ entryKey k b

/-! ## getStationStatus (`src/index.ts` lines 85–94) -/

/-- A row of the `ajaxdevicestats` response: the code only checks that the
first row carries a `date` field. -/
structure StatusRow where
  date : ℚ
  deriving DecidableEq, Repr

/-- The decoded `ajaxdevicestats` payload: either falsy / not an array, or an
array of rows, each with or without its `date` field. -/
inductive StatusJson where
  | notArray
  | arr (rows : List (Marked StatusRow))
  deriving DecidableEq, Repr

/-- Body of `getStationStatus` (lines 86–90): session gate, fetch, shape
check.  `"date" in data[0]` on an empty array throws a `TypeError`, caught at
the boundary like every other condition. -/
def getStationStatusBody (id : String) (s : Session) (env : Remote StatusJson) :
    Except WcError (List (Marked StatusRow)) × List String :=
  if (getCookie s).length < 1 then (.error .sessionRequired, [])
  else
    match env with
    | .thrown => (.error .network, [statusUrl])
    | .json .notArray => (.error .fetchFailed, [statusUrl])
    | .json (.arr rows) =>
      match rows with
      | [] => (.error .typeError, [statusUrl])
      | .absent :: _ => (.error .fetchFailed, [statusUrl])
      | .present _ :: _ => (.ok rows, [statusUrl])

/-- Public `getStationStatus`: the `try/catch` wrapping (lines 91–93). -/
def getStationStatusRun (id : String) (s : Session) (env : Remote StatusJson) :
    Except WcError (PubResult (List (Marked StatusRow))) × List String :=
  match getStationStatusBody id s env with
  | (.ok r, t) => (.ok (.payload r), t)
  | (.error e, t) => (.ok (.errVal e), t)

/-! ## getStatistics (`src/index.ts` lines 96–104) -/

/-- The `device/stats` payload: the code only checks `temp_current`;
`Marked.absent` also covers a falsy response. -/
structure StatsData where
  fields : List (String × ℚ)
  deriving DecidableEq, Repr

/-- Body of `getStatistics` (lines 98–100). -/
def getStatisticsBody (id : String) (env : Remote (Marked StatsData)) :
    Except WcError StatsData × List String :=
  match env with
  | .thrown => (.error .network, [statsUrl])
  | .json .absent => (.error .fetchFailed, [statsUrl])
  | .json (.present st) => (.ok st, [statsUrl])

/-- Public `getStatistics`: the `try/catch` wrapping (lines 101–103). -/
def getStatisticsRun (id : String) (env : Remote (Marked StatsData)) :
    Except WcError (PubResult StatsData) × List String :=
  match getStatisticsBody id env with
  | (.ok r, t) => (.ok (.payload r), t)
  | (.error e, t) => (.ok (.errVal e), t)

/-! ## getNearest (`src/index.ts` lines 106–114) -/

/-- A payload carrying a `devices` list: `bad` covers a falsy response, a
missing `devices` field, or `devices` not being an array. -/
inductive DevicesJson where
  | bad
  | good (devices : List DeviceEntry)
  deriving DecidableEq, Repr

/-- Body of `getNearest` (lines 108–110). -/
def getNearestBody (lat lon radius : String) (env : Remote DevicesJson) :
    Except WcError (List DeviceEntry) × List String :=
  match env with
  | .thrown => (.error .network, [nearestUrl lat lon radius])
  | .json .bad => (.error .fetchFailed, [nearestUrl lat lon radius])
  | .json (.good devices) =>
    (.ok (parseDevicesList devices (some "distance")), [nearestUrl lat lon radius])

/-- Public `getNearest`: its `catch` returns the single-element list
`[{error: err}]` (line 112), so the result is either the device list or a
list of error values. -/
def getNearestRun (lat lon radius : String) (env : Remote DevicesJson) :
    Except WcError (List DeviceEntry ⊕ List WcError) × List String :=
  match getNearestBody lat lon radius env with
  | (.ok r, t) => (.ok (.inl r), t)
  | (.error e, t) => (.ok (.inr [e]), t)

/-! ## getTop (`src/index.ts` lines 116–133) -/

/-- The `definer` argument of `getTop`. -/
inductive Definer where
  | newest
  | followers
  | popular
  deriving DecidableEq, Repr

def definerStr : Definer → String
  | .newest => "newest"
  | .followers => "followers"
  | .popular => "popular"

/-- Line 120: the period is falsy when absent or the empty string. -/
def falsyPeriod : Option String → Bool
  | none => true
  | some p => p == ""

def topBaseUrl (definer : Definer) (cc : String) : String :=
  "https://app.weathercloud.net/page/" ++ definerStr definer ++ "/country/" ++ cc

/-- Body of `getTop` (lines 118–129): build the URL, require a period for the
`popular` ranking, fetch, check the `devices` array, pick the sort key
(`age` for `newest`, `views` for `popular`, otherwise the definer itself)
and normalize the list. -/
def getTopBody (definer : Definer) (cc : String) (period : Option String)
    (env : Remote DevicesJson) : Except WcError (List DeviceEntry) × List String :=
  let url :=
    if definer = .popular then
      match period with
      | some p => topBaseUrl definer cc ++ "/period/" ++ p
      | none => topBaseUrl definer cc
    else topBaseUrl definer cc
  if definer = .popular ∧ falsyPeriod period then (.error .periodRequired, [])
  else
    match env with
    | .thrown => (.error .network, [url])
    | .json .bad => (.error .fetchFailed, [url])
    | .json (.good devices) =>
      let dataType :=
        match definer with
        | .newest => "age"
        | .popular => "views"
        | .followers => "followers"
      (.ok (parseDevicesList devices (some dataType)), [url])

/-- Public `getTop`: the `try/catch` wrapping (lines 130–132). -/
def getTopRun (definer : Definer) (cc : String) (period : Option String)
    (env : Remote DevicesJson) :
    Except WcError (PubResult (List DeviceEntry)) × List String :=
  match getTopBody definer cc period env with
  | (.ok r, t) => (.ok (.payload r), t)
  | (.error e, t) => (.ok (.errVal e), t)

/-! ## getOwn (`src/index.ts` lines 135–147) -/

/-- The `page/own` payload: `bad` covers a falsy response or a missing
`devices` or `favorites` field. -/
inductive OwnJson where
  | bad
  | good (devices favorites : List DeviceEntry)
  deriving DecidableEq, Repr

/-- Body of `getOwn` (lines 137–143): session gate, fetch, shape check,
then both lists normalized without a sort key. -/
def getOwnBody (s : Session) (env : Remote OwnJson) :
    Except WcError (List DeviceEntry × List DeviceEntry) × List String :=
  if (getCookie s).length < 1 then (.error .sessionRequired, [])
  else
    match env with
    | .thrown => (.error .network, [ownUrl])
    | .json .bad => (.error .fetchFailed, [ownUrl])
    | .json (.good devices favorites) =>
      (.ok (parseDevicesList devices none, parseDevicesList favorites none), [ownUrl])

/-- Public `getOwn`: the `try/catch` wrapping (lines 144–146). -/
def getOwnRun (s : Session) (env : Remote OwnJson) :
    Except WcError (PubResult (List DeviceEntry × List DeviceEntry)) × List String :=
  match getOwnBody s env with
  | (.ok r, t) => (.ok (.payload r), t)
  | (.error e, t) => (.ok (.errVal e), t)

/-! ## login (`src/index.ts` lines 149–171) -/

/-- A completed response of the sign-in `fetch`: its status and the values of
its `Set-Cookie` headers (`getSetCookie()`). -/
structure LoginResp where
  status : Nat
  setCookie : List String
  deriving DecidableEq, Repr

/-- Environment of `login`: the sign-in `fetch` either rejects or completes. -/
inductive LoginEnv where
  | thrown
  | resp (r : LoginResp)
  deriving DecidableEq, Repr

/-- Line 169: `resp.headers.getSetCookie().join("; ").split("; ")`. -/
def cookieEntries (r : LoginResp) : List String :=
  jsSplit "; " (jsJoin "; " r.setCookie)

/-- The `login` operation (lines 149–171).  There is no `try/catch` here: a transport
rejection propagates (`Except.error`).  On a completed response, a status
other than 302 returns `false`; on 302 the credentials to store are the
given pair when `storeCredentials` is truthy and two empty strings
otherwise, and the result is the boolean reported by `setCookies`. -/
def loginRun (mail password : String) (storeCredentials : Bool)
    (env : LoginEnv) (s : Session) : Except WcError (Bool × Session) :=
  match env with
  | .thrown => .error .network
  | .resp r =>
    if r.status ≠ 302 then .ok (false, s)
    else
      let store := if storeCredentials then (mail, password) else ("", "")
      match setCookies (cookieEntries r) store.1 store.2 s with
      | (false, s') => .ok (false, s')
      | (true, s') => .ok (true, s')

/-! ## Concrete data used by witnesses -/

/-- A valid synthetic values payload: 15 °C at dew point 15, pressure 1012,
no rain, epoch 3600. -/
def sampleA : RawSample :=
  { temp := 15, dew := 15, bar := 1012, wspd := 3, hum := 50, rainrate := 0,
    epoch := 3600 }

/-- A synthetic last-update payload: 120 seconds since the last update. -/
def updateA : UpdateData := { update := 120 }

/-- A synthetic profile payload. -/
def profileA : ProfileInfo := { fields := [("observer", .str "x")] }

/-- The environment delivering the synthetic triple. -/
def envA : FetchEnv :=
  { values := .json (.present sampleA), lastUpdate := .json (.present updateA),
    profile := .json (.present profileA) }

/-- The report `fetchWeather` assembles from `envA`: clouds height 0
(temperature equals dew point), label `few-fog`, feel 15. -/
def reportA : Report :=
  { weather :=
      [("temp", .num 15), ("dew", .num 15), ("bar", .num 1012),
       ("wspd", .num 3), ("hum", .num 50), ("rainrate", .num 0),
       ("cloudsHeight", .num 0), ("weatherAvg", .str "few-fog"),
       ("feel", .num 15)],
    update := { update := 120, time := timeOfDayString 3600,
                lastUpdateMinutes := 2, updateTime := 3600 },
    profile := profileA }

/-! ## Theorems -/

/-- C6 (confirmed): an empty id or an id of exactly ten digits makes
`fetchWeather` return the `invalid ID` error value with an empty fetch
trace — no network call is issued, whatever the remote environment. -/
theorem fetchWeather_badId_fastFail (chillFn heatFn : ℚ → ℚ → ℚ) (id : String)
    (env : FetchEnv) (h : id = "" ∨ isTenDigitId id = true) :
    fetchWeatherRun chillFn heatFn id env = (.ok (.errVal .invalidId), []) := by
  have hb : badId id = true := by
    rcases h with h | h <;> simp [badId, h]
  simp [fetchWeatherRun, fetchWeatherBody, hb]

/-- Witness for C6 at the ten-digit id `"1234567890"`. -/
theorem fetchWeather_badId_fastFail_witness :
    fetchWeatherRun (fun _ _ => 0) (fun _ _ => 0) "1234567890"
      { values := .thrown, lastUpdate := .thrown, profile := .thrown } =
      (.ok (.errVal .invalidId), []) :=
  fetchWeather_badId_fastFail _ _ _ _ (Or.inr (by decide))

/-- C7 (confirmed): with an empty cookie set, both session-gated operations
return the `Session required!` error value with an empty fetch trace —
no network call is issued, whatever the remote environment. -/
theorem sessionGated_emptyCookies_fastFail (id : String) (s : Session)
    (envStatus : Remote StatusJson) (envOwn : Remote OwnJson)
    (h : s.cookies = []) :
    getStationStatusRun id s envStatus = (.ok (.errVal .sessionRequired), []) ∧
    getOwnRun s envOwn = (.ok (.errVal .sessionRequired), []) := by
  constructor <;>
    simp [getStationStatusRun, getStationStatusBody, getOwnRun, getOwnBody,
      getCookie, h]

/-- Witness for C7 at the empty session. -/
theorem sessionGated_emptyCookies_fastFail_witness :
    getStationStatusRun "st" { cookies := [], mail := "", password := "" } .thrown =
      (.ok (.errVal .sessionRequired), []) ∧
    getOwnRun { cookies := [], mail := "", password := "" } .thrown =
      (.ok (.errVal .sessionRequired), []) :=
  sessionGated_emptyCookies_fastFail "st" _ _ _ rfl

/-- C8 (confirmed): `getTop` with kind `popular` and no period returns the
`Period required for popular ranking` error value with an empty fetch
trace — no network call is issued, whatever the remote environment. -/
theorem getTop_popular_noPeriod_fastFail (cc : String) (env : Remote DevicesJson) :
    getTopRun .popular cc none env = (.ok (.errVal .periodRequired), []) := by
  simp [getTopRun, getTopBody, falsyPeriod]

/-- C5 (confirmed): when the id passes validation and all three fetches
complete but any marker field is absent (`temp` in values, `update` in
last-update, `observer` in profile), `fetchWeather` returns the
`Failed to fetch` error value — never a report. -/
theorem fetchWeather_missingMarker (chillFn heatFn : ℚ → ℚ → ℚ) (id : String)
    (vj : Marked RawSample) (uj : Marked UpdateData) (pj : Marked ProfileInfo)
    (hid : badId id = false)
    (h : vj = .absent ∨ uj = .absent ∨ pj = .absent) :
    (fetchWeatherRun chillFn heatFn id
      { values := .json vj, lastUpdate := .json uj, profile := .json pj }).1 =
      .ok (.errVal .fetchFailed) := by
  cases vj <;> cases uj <;> cases pj <;>
    simp_all [fetchWeatherRun, fetchWeatherBody, hid]

/-- Witness for C5: a values payload without `temp`. -/
theorem fetchWeather_missingMarker_witness :
    (fetchWeatherRun (fun _ _ => 0) (fun _ _ => 0) "st"
      { values := .json .absent,
        lastUpdate := .json (.present { update := 60 }),
        profile := .json (.present { fields := [] }) }).1 =
      .ok (.errVal .fetchFailed) :=
  fetchWeather_missingMarker _ _ "st" _ _ _ (by decide) (Or.inl rfl)

/-- C2 (confirmed): the clouds height is `max 0 (124.69 * (temp - dew))`
when both temperature and dew point exceed −40 and the sentinel `-1`
otherwise; and with the markers present and a valid id, a sample with
temperature ≤ −40, dew point ≤ −40, negative pressure, negative rain rate or
humidity outside `[0,100]` makes `fetchWeather` return the `Invalid data`
error value instead of a report. -/
theorem cloudsHeight_and_invalidData (chillFn heatFn : ℚ → ℚ → ℚ) (id : String)
    (d : RawSample) (u : UpdateData) (p : ProfileInfo) :
    (d.temp > -40 ∧ d.dew > -40 →
      cloudsHeightOf d.temp d.dew = max 0 ((124.69 : ℚ) * (d.temp - d.dew))) ∧
    (d.temp ≤ -40 ∨ d.dew ≤ -40 → cloudsHeightOf d.temp d.dew = -1) ∧
    (badId id = false →
      (d.temp ≤ -40 ∨ d.dew ≤ -40 ∨ d.bar < 0 ∨ d.rainrate < 0 ∨
        d.hum < 0 ∨ d.hum > 100) →
      (fetchWeatherRun chillFn heatFn id
        { values := .json (.present d), lastUpdate := .json (.present u),
          profile := .json (.present p) }).1 = .ok (.errVal .invalidData)) := by
  have hsent : d.temp ≤ -40 ∨ d.dew ≤ -40 → cloudsHeightOf d.temp d.dew = -1 := by
    intro h
    rw [cloudsHeightOf, if_neg]
    rintro ⟨a, b⟩
    rcases h with h | h <;> linarith
  refine ⟨fun h => ?_, hsent, fun hid h => ?_⟩
  · rw [cloudsHeightOf, if_pos h]
  · have hinv : invalidSample d (cloudsHeightOf d.temp d.dew) = true := by
      simp only [invalidSample, Bool.or_eq_true, decide_eq_true_eq]
      rcases h with h | h | h | h | h | h
      · have hlt : cloudsHeightOf d.temp d.dew < 0 := by
          rw [hsent (Or.inl h)]; norm_num
        tauto
      · have hlt : cloudsHeightOf d.temp d.dew < 0 := by
          rw [hsent (Or.inr h)]; norm_num
        tauto
      · tauto
      · tauto
      · tauto
      · tauto
    simp [fetchWeatherRun, fetchWeatherBody, hid, hinv]

/-- Witness for C2: a sample with temperature −50. -/
theorem cloudsHeight_and_invalidData_witness :
    (fetchWeatherRun (fun _ _ => 0) (fun _ _ => 0) "st"
      { values := .json (.present
          { temp := -50, dew := -50, bar := 1000, wspd := 0, hum := 50,
            rainrate := 0, epoch := 0 }),
        lastUpdate := .json (.present { update := 60 }),
        profile := .json (.present { fields := [] }) }).1 =
      .ok (.errVal .invalidData) :=
  (cloudsHeight_and_invalidData _ _ "st" _ _ _).2.2 (by decide)
    (Or.inl (by norm_num))

/-- C3 (confirmed): the condition label.  With zero rain rate it is selected
by the pressure thresholds 1005/1010/1015 (`cloud`/`change`/`few`, else
`clear`) and the `-fog` suffix is appended exactly when the clouds height is
below 150; with positive rain rate it is `light` below 2, `moderate` below
15 and `heavy` from 15 on, with no fog overlay. -/
theorem weatherAvg_branches (bar rainrate cloudsHeight : ℚ) :
    (rainrate = 0 → weatherAvgOf bar rainrate cloudsHeight =
      (if bar < 1005 then "cloud"
        else if bar < 1010 then "change"
        else if bar < 1015 then "few"
        else "clear") ++ (if cloudsHeight < 150 then "-fog" else "")) ∧
    (rainrate > 0 → weatherAvgOf bar rainrate cloudsHeight =
      if rainrate < 2 then "light"
      else if rainrate < 15 then "moderate"
      else "heavy") := by
  constructor
  · intro h
    simp only [weatherAvgOf, if_pos h]
    split_ifs <;> simp
  · intro h
    simp [weatherAvgOf, ne_of_gt h]

/-- Witness for C3: pressure 1012, no rain, clouds height 100 gives
`few-fog`, and rain rate 5 gives `moderate`. -/
theorem weatherAvg_branches_witness :
    weatherAvgOf 1012 0 100 = "few-fog" ∧ weatherAvgOf 1000 5 0 = "moderate" := by
  constructor
  · have h := (weatherAvg_branches 1012 0 100).1 rfl
    rw [h]
    norm_num
    rfl
  · have h := (weatherAvg_branches 1000 5 0).2 (by norm_num)
    rw [h]
    norm_num

/-- C9 (confirmed): the perceived temperature is the wind chill of
(temperature, wind speed) below 10, the heat index of (temperature,
humidity) above 26 and the raw temperature in between; in particular it is
exactly 18 at temperature 18. -/
theorem feel_branches (chillFn heatFn : ℚ → ℚ → ℚ) (t w h : ℚ) :
    (t < 10 → feelOf chillFn heatFn t w h = chillFn t w) ∧
    (t > 26 → feelOf chillFn heatFn t w h = heatFn t h) ∧
    (10 ≤ t → t ≤ 26 → feelOf chillFn heatFn t w h = t) ∧
    feelOf chillFn heatFn 18 w h = 18 := by
  refine ⟨fun h1 => ?_, fun h2 => ?_, fun h3 h4 => ?_, ?_⟩
  · rw [feelOf, if_pos h1]
  · rw [feelOf, if_neg (by linarith), if_pos h2]
  · rw [feelOf, if_neg (by linarith), if_neg (by linarith)]
  · rw [feelOf, if_neg (by norm_num), if_neg (by norm_num)]

/-- Witness for C9: temperature 5 routes through the wind-chill function and
temperature 18 is returned unchanged. -/
theorem feel_branches_witness :
    feelOf (fun a b => a - b) (fun a b => a + b) 5 2 0 = 3 ∧
    feelOf (fun a b => a - b) (fun a b => a + b) 18 0 0 = 18 := by
  constructor
  · have h := (feel_branches (fun a b => a - b) (fun a b => a + b) 5 2 0).1
      (by norm_num)
    rw [h]
    norm_num
  · exact (feel_branches (fun a b => a - b) (fun a b => a + b) 18 0 0).2.2.2

/-- C4 (confirmed): a successfully assembled report carries no `epoch` field
in its weather section, its `update.updateTime` is exactly the original
epoch, its `update.lastUpdateMinutes` is `round(update-age-seconds / 60)`,
and its profile section is the profile payload unchanged. -/
theorem report_assembly (chillFn heatFn : ℚ → ℚ → ℚ) (id : String)
    (d : RawSample) (u : UpdateData) (p : ProfileInfo) (r : Report)
    (h : (fetchWeatherRun chillFn heatFn id
      { values := .json (.present d), lastUpdate := .json (.present u),
        profile := .json (.present p) }).1 = .ok (.payload r)) :
    (∀ f ∈ r.weather, f.1 ≠ "epoch") ∧
    r.update.updateTime = d.epoch ∧
    r.update.lastUpdateMinutes = jsRound (u.update / 60) ∧
    r.profile = p := by
  by_cases hid : badId id = true
  · simp [fetchWeatherRun, fetchWeatherBody, hid] at h
  · rw [Bool.not_eq_true] at hid
    by_cases hv : invalidSample d (cloudsHeightOf d.temp d.dew) = true
    · simp [fetchWeatherRun, fetchWeatherBody, hid, hv] at h
    · rw [Bool.not_eq_true] at hv
      simp only [fetchWeatherRun, fetchWeatherBody, hid, hv, Bool.false_eq_true,
        if_false, Except.ok.injEq, PubResult.payload.injEq] at h
      subst h
      refine ⟨?_, rfl, rfl, rfl⟩
      simp [weatherFields, dataToSaveFields, sampleFields]

/-- Witness for C4 on the concrete valid triple of `envA`. -/
theorem report_assembly_witness :
    (∀ f ∈ reportA.weather, f.1 ≠ "epoch") ∧
    reportA.update.updateTime = sampleA.epoch ∧
    reportA.update.lastUpdateMinutes = jsRound (updateA.update / 60) ∧
    reportA.profile = profileA :=
  report_assembly (fun _ _ => 0) (fun _ _ => 0) "st" sampleA updateA profileA
    reportA (by
      have hid : badId "st" = false := by decide
      have hch : cloudsHeightOf 15 15 = 0 := by norm_num [cloudsHeightOf]
      have hinv : invalidSample
          { temp := 15, dew := 15, bar := 1012, wspd := 3, hum := 50,
            rainrate := 0, epoch := 3600 } 0 = false := by
        norm_num [invalidSample]
      have havg : weatherAvgOf 1012 0 0 = "few-fog" := by
        norm_num [weatherAvgOf]
        rfl
      have hfeel : feelOf (fun _ _ => (0 : ℚ)) (fun _ _ => (0 : ℚ)) 15 3 50 = 15 := by
        norm_num [feelOf]
      have hmin : jsRound ((120 : ℚ) / 60) = 2 := by
        rw [jsRound, show ((120 : ℚ) / 60 + 1 / 2) = 5 / 2 by norm_num,
          Int.floor_eq_iff]
        norm_num
      simp [fetchWeatherRun, fetchWeatherBody, envA, hid, hinv, reportA,
        weatherFields, dataToSaveFields, sampleFields, havg, hfeel, hch, hmin,
        sampleA, updateA, profileA])

/-- C1 (amended theorem): every non-login public operation always completes
with a value — any thrown condition is caught and returned as the `{error}`
value (a single-element list for `getNearest`); `login` returns `false`
whenever the sign-in `fetch` completes with a status other than 302, and
never raises on a completed response — but a transport-level rejection of the
sign-in `fetch` propagates out of `login`. -/
theorem boundaries_wrap_errors :
    (∀ chillFn heatFn id env, ∃ v,
      (fetchWeatherRun chillFn heatFn id env).1 = Except.ok v) ∧
    (∀ id s env, ∃ v, (getStationStatusRun id s env).1 = Except.ok v) ∧
    (∀ id env, ∃ v, (getStatisticsRun id env).1 = Except.ok v) ∧
    (∀ lat lon radius env,
      (∃ devs, (getNearestRun lat lon radius env).1 = Except.ok (Sum.inl devs)) ∨
      (∃ e, (getNearestRun lat lon radius env).1 = Except.ok (Sum.inr [e]))) ∧
    (∀ definer cc period env, ∃ v,
      (getTopRun definer cc period env).1 = Except.ok v) ∧
    (∀ s env, ∃ v, (getOwnRun s env).1 = Except.ok v) ∧
    (∀ mail password sc (r : LoginResp) s, r.status ≠ 302 →
      loginRun mail password sc (.resp r) s = Except.ok (false, s)) ∧
    (∀ mail password sc (r : LoginResp) s, ∃ b s',
      loginRun mail password sc (.resp r) s = Except.ok (b, s')) := by
  refine ⟨?_, ?_, ?_, ?_, ?_, ?_, ?_, ?_⟩
  · intro chillFn heatFn id env
    rcases hb : fetchWeatherBody chillFn heatFn id env with ⟨res, t⟩
    cases res <;> simp [fetchWeatherRun, hb]
  · intro id s env
    rcases hb : getStationStatusBody id s env with ⟨res, t⟩
    cases res <;> simp [getStationStatusRun, hb]
  · intro id env
    rcases hb : getStatisticsBody id env with ⟨res, t⟩
    cases res <;> simp [getStatisticsRun, hb]
  · intro lat lon radius env
    rcases hb : getNearestBody lat lon radius env with ⟨res, t⟩
    cases res with
    | ok devs => exact Or.inl ⟨devs, by simp [getNearestRun, hb]⟩
    | error e => exact Or.inr ⟨e, by simp [getNearestRun, hb]⟩
  · intro definer cc period env
    rcases hb : getTopBody definer cc period env with ⟨res, t⟩
    cases res <;> simp [getTopRun, hb]
  · intro s env
    rcases hb : getOwnBody s env with ⟨res, t⟩
    cases res <;> simp [getOwnRun, hb]
  · intro mail password sc r s h
    simp [loginRun, h]
  · intro mail password sc r s
    by_cases h : r.status = 302
    · rcases hsc : setCookies (cookieEntries r)
        (if sc then (mail, password) else ("", "")).1
        (if sc then (mail, password) else ("", "")).2 s with ⟨b, s'⟩
      cases b with
      | false => exact ⟨false, s', by simp [loginRun, h, hsc]⟩
      | true => exact ⟨true, s', by simp [loginRun, h, hsc]⟩
    · exact ⟨false, s, by simp [loginRun, h]⟩

/-- Witness for C1's amended theorem: a concrete throwing environment for
`fetchWeather` and a concrete non-302 sign-in response for `login`. -/
theorem boundaries_wrap_errors_witness :
    (∃ v, (fetchWeatherRun (fun _ _ => 0) (fun _ _ => 0) "st"
      { values := .thrown, lastUpdate := .thrown, profile := .thrown }).1 =
      Except.ok v) ∧
    loginRun "mail" "pw" false (.resp { status := 200, setCookie := [] })
      { cookies := [], mail := "", password := "" } =
      Except.ok (false, { cookies := [], mail := "", password := "" }) :=
  ⟨boundaries_wrap_errors.1 _ _ "st" _,
    boundaries_wrap_errors.2.2.2.2.2.2.1 "mail" "pw" false _ _ (by decide)⟩

/-- C1 counterexample: when the sign-in `fetch` itself rejects, `login`
raises — it does not return `false`. -/
theorem login_transportThrow_raises :
    loginRun "mail" "pw" false .thrown { cookies := [], mail := "", password := "" } =
      Except.error WcError.network ∧
    ∀ b s', loginRun "mail" "pw" false .thrown
      { cookies := [], mail := "", password := "" } ≠ Except.ok (b, s') :=
  ⟨rfl, fun _ _ h => nomatch h⟩

/-- C10 (confirmed): on a 302 response without `storeCredentials`, `login`
hands the empty strings to `setCookies` as the credentials to remember, so a
successful cookie replacement leaves the stored mail and password empty —
previously remembered credentials are overwritten, not preserved. -/
theorem login_no_store_blanks_credentials (mail password : String)
    (r : LoginResp) (s : Session) (h : r.status = 302) :
    loginRun mail password false (.resp r) s =
      Except.ok (setCookies (cookieEntries r) "" "" s) ∧
    ((setCookies (cookieEntries r) "" "" s).1 = true →
      (setCookies (cookieEntries r) "" "" s).2.mail = "" ∧
      (setCookies (cookieEntries r) "" "" s).2.password = "") := by
  constructor
  · rcases hsc : setCookies (cookieEntries r) "" "" s with ⟨b, s'⟩
    cases b <;> simp [loginRun, h, hsc]
  · intro ht
    unfold setCookies at ht ⊢
    revert ht
    rcases hp : (cookieEntries r).filterMap parseCookieEntry with _ | ⟨c, l⟩
    · intro ht
      simp at ht
    · intro ht
      simp

/-- Witness for C10: a 302 response delivering one cookie overwrites the
previously remembered credentials with empty strings. -/
theorem login_no_store_blanks_credentials_witness :
    loginRun "user" "pw" false (.resp { status := 302, setCookie := ["sid=abc"] })
      { cookies := [("old", "x")], mail := "olduser", password := "oldpw" } =
      Except.ok (setCookies
        (cookieEntries { status := 302, setCookie := ["sid=abc"] }) "" ""
        { cookies := [("old", "x")], mail := "olduser", password := "oldpw" }) ∧
    (setCookies (cookieEntries { status := 302, setCookie := ["sid=abc"] }) "" ""
      { cookies := [("old", "x")], mail := "olduser", password := "oldpw" }).2.mail = "" ∧
    (setCookies (cookieEntries { status := 302, setCookie := ["sid=abc"] }) "" ""
      { cookies := [("old", "x")], mail := "olduser", password := "oldpw" }).2.password = "" := by
  have h := login_no_store_blanks_credentials "user" "pw"
    { status := 302, setCookie := ["sid=abc"] }
    { cookies := [("old", "x")], mail := "olduser", password := "oldpw" } rfl
  exact ⟨h.1, h.2 (by decide)⟩

end Weathercloud
